import Mathlib

/-!
Shallow embedding of `crates/evm/traces/src/identifier/mod.rs`: the composite
trace identifier (`TraceIdentifiers`), its per-call orchestration algorithm
(`identify_addresses`), and its builder surface (`new`, `default`,
`with_local`, `with_local_and_bytecodes`, `with_etherscan`, `is_empty`).
The individual strategies (`LocalTraceIdentifier` in local.rs,
`EtherscanIdentifier` in etherscan.rs) are not part of the given source; the
orchestrator treats them as opaque implementations of the `TraceIdentifier`
trait, so a strategy slot is modelled as the trait's single method: a total
function from a batch of call-trace nodes to a list of identified-address
records. Where a claim depends on the missing strategy code, a definition
marked `Modelled from the spec:` stands in for it.
-/

namespace FoundryTraces

/-- A chain address (`alloy_primitives::Address`), modelled by its numeric
value; the orchestrator only passes addresses around. -/
abbrev Address := Nat

/-- One recorded invocation within an execution trace
(`revm_inspectors::tracing::types::CallTraceNode`); read-only to this core,
carrying at least the invoked address. -/
structure CallTraceNode where
  address : Address
deriving DecidableEq, Repr

/-- An address identified by a trace identifier (`IdentifiedAddress<'a>`).
`abi` and `artifact_id` are opaque payloads here (`JsonAbi`, `ArtifactId`),
modelled as strings; per the spec's ownership invariant the model always
carries an owned copy. -/
structure IdentifiedAddress where
  address : Address
  label : Option String
  contract : Option String
  abi : Option String
  artifact_id : Option String
deriving DecidableEq, Repr

/-- The `TraceIdentifier` trait's single method: given an ordered batch of
call-trace nodes, produce a sequence of identified-address records. The
contract never signals failure, so the codomain is a plain list. -/
abbrev Strategy := List CallTraceNode → List IdentifiedAddress

/-- A collection of trace identifiers (`TraceIdentifiers<'a>`): at most a
local and an etherscan strategy slot, in that priority order. Each slot is
modelled by the trait method the orchestrator invokes on it. -/
structure TraceIdentifiers where
  «local» : Option Strategy
  etherscan : Option Strategy

/-- Creates a new, empty instance (`TraceIdentifiers::new`). -/
def TraceIdentifiers.new : TraceIdentifiers :=
  { «local» := none, etherscan := none }

/-- `impl Default for TraceIdentifiers`: `default` forwards to `new`. -/
def TraceIdentifiers.default : TraceIdentifiers :=
  TraceIdentifiers.new

/-- The tail of `identify_addresses` after the local step: the second `if let`
on the etherscan slot, appending its records to the accumulator. Split out
because the Rust early `return` is modelled by not calling this tail. -/
def TraceIdentifiers.identifyEtherscanStep (self : TraceIdentifiers)
    (identities : List IdentifiedAddress) (nodes : List CallTraceNode) :
    List IdentifiedAddress :=
  match self.etherscan with
  | some etherscan => identities ++ etherscan nodes
  | none => identities

/-- `TraceIdentifiers::identify_addresses`: start from an empty accumulator
(reserved capacity is irrelevant to values), run the local strategy if
configured and return early when the accumulated record count reaches the
input node count, otherwise run the etherscan strategy if configured. -/
def TraceIdentifiers.identify_addresses (self : TraceIdentifiers)
    (nodes : List CallTraceNode) : List IdentifiedAddress :=
  let identities : List IdentifiedAddress := []
  match self.«local» with
  | some l =>
      let identities := identities ++ l nodes
      if identities.length ≥ nodes.length then
        identities
      else
        self.identifyEtherscanStep identities nodes
  | none => self.identifyEtherscanStep identities nodes

/-- Which of the two fixed strategy slots was invoked during a call; used by
the instrumented semantics `identifyRun`. -/
inductive InvokedStrategy where
  | localStrategy
  | etherscanStrategy
deriving DecidableEq, Repr

/-- Instrumented tail mirroring `identifyEtherscanStep`, additionally
recording whether the etherscan strategy was invoked. -/
def TraceIdentifiers.identifyRunEtherscanStep (self : TraceIdentifiers)
    (identities : List IdentifiedAddress) (nodes : List CallTraceNode) :
    List IdentifiedAddress × List InvokedStrategy :=
  match self.etherscan with
  | some etherscan =>
      (identities ++ etherscan nodes, [InvokedStrategy.etherscanStrategy])
  | none => (identities, [])

/-- Instrumented semantics of `identify_addresses`: the same control flow,
additionally returning the sequence of strategy invocations in the order
they happen. Its first component coincides with `identify_addresses`
(`identifyRun_fst`). -/
def TraceIdentifiers.identifyRun (self : TraceIdentifiers)
    (nodes : List CallTraceNode) :
    List IdentifiedAddress × List InvokedStrategy :=
  match self.«local» with
  | some l =>
      let identities := [] ++ l nodes
      if identities.length ≥ nodes.length then
        (identities, [InvokedStrategy.localStrategy])
      else
        let rest := self.identifyRunEtherscanStep identities nodes
        (rest.1, InvokedStrategy.localStrategy :: rest.2)
  | none => self.identifyRunEtherscanStep [] nodes

/-- The records a given slot would contribute on this batch: the slot's
strategy applied to the nodes, or `[]` when the slot is unconfigured. -/
def TraceIdentifiers.strategyOutput (self : TraceIdentifiers)
    (nodes : List CallTraceNode) : InvokedStrategy → List IdentifiedAddress
  | InvokedStrategy.localStrategy =>
      match self.«local» with
      | some l => l nodes
      | none => []
  | InvokedStrategy.etherscanStrategy =>
      match self.etherscan with
      | some e => e nodes
      | none => []

/-- `TraceIdentifiers::is_empty`: true iff neither slot is set. -/
def TraceIdentifiers.is_empty (self : TraceIdentifiers) : Bool :=
  self.«local».isNone && self.etherscan.isNone

/-- Modelled from the spec: the caller-owned artifact registry
(`foundry_common::ContractsByArtifact`, not under src/). The spec exposes it
only as an association of artifact identifiers to ABI + bytecode; entries are
`(artifact identifier, ABI, bytecode)`. -/
structure ContractsByArtifact where
  entries : List (String × String × List Nat)
deriving DecidableEq, Repr

/-- Modelled from the spec: the caller-owned address → deployed-bytecode
mapping (`HashMap<Address, Bytes>`). -/
abbrev BytecodeMap := List (Address × List Nat)

/-- A chain identity (`foundry_config::Chain`); only its selection role
matters here. -/
structure Chain where
  id : Nat
deriving DecidableEq, Repr

/-- Modelled from the spec: `LocalTraceIdentifier` (local.rs is not under
src/). The composite stores it and calls only its trait method; the model
keeps the registry and optional bytecode map it was built from. -/
structure LocalTraceIdentifier where
  known_contracts : ContractsByArtifact
  contracts_bytecode : Option BytecodeMap

/-- Modelled from the spec: `LocalTraceIdentifier::new` wraps the registry
with no bytecode mapping attached. -/
def LocalTraceIdentifier.new (known_contracts : ContractsByArtifact) :
    LocalTraceIdentifier :=
  { known_contracts := known_contracts, contracts_bytecode := none }

/-- Modelled from the spec: `LocalTraceIdentifier::with_bytecodes` attaches
the deployed-bytecode mapping alongside the registry. -/
def LocalTraceIdentifier.with_bytecodes (self : LocalTraceIdentifier)
    (contracts_bytecode : BytecodeMap) : LocalTraceIdentifier :=
  { self with contracts_bytecode := some contracts_bytecode }

/-- Modelled from the spec: the local strategy's trait method. Its matching
algorithm is out of scope for this core (an opaque black box behind the
strategy contract); the model resolves a node when the bytecode mapping gives
its deployed bytecode and some registry artifact carries that bytecode,
honouring the contract that every record identifies an address present in
the batch. No orchestrator claim depends on this body: they quantify over
arbitrary strategy functions. -/
def LocalTraceIdentifier.identify_addresses (self : LocalTraceIdentifier) :
    Strategy :=
  fun nodes =>
    match self.contracts_bytecode with
    | none => []
    | some m =>
        nodes.filterMap fun node =>
          (m.lookup node.address).bind fun code =>
            (self.known_contracts.entries.find? fun e =>
                decide (e.2.2 = code)).map fun e =>
              { address := node.address, label := none,
                contract := some e.1, abi := some e.2.1,
                artifact_id := some e.1 }

/-- Modelled from the spec: how chain/configuration resolution of the remote
explorer can turn out — no supported explorer for the chain, an unusable
configuration, or a resolved remote strategy. -/
inductive EtherscanResolution where
  | unsupportedChain
  | configError (msg : String)
  | resolved (strategy : Strategy)

/-- Modelled from the spec: the chain-configuration object
(`foundry_config::Config`, not under src/), used only to select/validate the
remote explorer endpoint and credentials; exposed here as the outcome of that
resolution per requested chain. -/
structure Config where
  resolveEtherscan : Option Chain → EtherscanResolution

/-- Modelled from the spec: `EtherscanIdentifier::new` (etherscan.rs is not
under src/). If the target chain has no supported remote explorer it yields
`Ok(None)` ("no strategy configured") rather than an error; other
configuration failures surface as a single aggregated error; otherwise it
yields the resolved remote strategy. -/
def EtherscanIdentifier.new (config : Config) (chain : Option Chain) :
    Except String (Option Strategy) :=
  match config.resolveEtherscan chain with
  | EtherscanResolution.unsupportedChain => Except.ok none
  | EtherscanResolution.configError msg => Except.error msg
  | EtherscanResolution.resolved s => Except.ok (some s)

/-- `TraceIdentifiers::with_local`: sets the local slot to the local
identifier built from the registry; the etherscan slot is untouched. -/
def TraceIdentifiers.with_local (self : TraceIdentifiers)
    (known_contracts : ContractsByArtifact) : TraceIdentifiers :=
  { self with
    «local» := some (LocalTraceIdentifier.new known_contracts).identify_addresses }

/-- `TraceIdentifiers::with_local_and_bytecodes`: sets the local slot to the
local identifier built from the registry and the bytecode mapping. -/
def TraceIdentifiers.with_local_and_bytecodes (self : TraceIdentifiers)
    (known_contracts : ContractsByArtifact)
    (contracts_bytecode : BytecodeMap) : TraceIdentifiers :=
  { self with
    «local» := some
      ((LocalTraceIdentifier.new known_contracts).with_bytecodes
        contracts_bytecode).identify_addresses }

/-- `TraceIdentifiers::with_etherscan`: `self.etherscan =
EtherscanIdentifier::new(config, chain)?; Ok(self)` — the `?` propagates the
aggregated construction error, otherwise the etherscan slot is set to the
returned option. -/
def TraceIdentifiers.with_etherscan (self : TraceIdentifiers)
    (config : Config) (chain : Option Chain) :
    Except String TraceIdentifiers :=
  match EtherscanIdentifier.new config chain with
  | Except.error e => Except.error e
  | Except.ok es => Except.ok { self with etherscan := es }

/-- Modelled from the spec: the strategy contract absorbs internal failures —
a strategy unable to resolve anything (including due to an error) returns
the subset it successfully resolved, empty on total failure. This turns a
strategy's internal fallible computation into the non-failing trait surface. -/
def absorbFailures
    (f : List CallTraceNode → Except String (List IdentifiedAddress)) :
    Strategy :=
  fun nodes =>
    match f nodes with
    | Except.ok records => records
    | Except.error _ => []

/-- A record used by concrete witnesses. -/
def sampleRecord : IdentifiedAddress :=
  { address := 1, label := none, contract := none, abi := none,
    artifact_id := none }

/-- A second record used by concrete witnesses. -/
def sampleRecord2 : IdentifiedAddress :=
  { address := 2, label := some "two", contract := none, abi := none,
    artifact_id := none }

/-- A call-trace node used by concrete witnesses. -/
def sampleNode : CallTraceNode := { address := 1 }

/-- A strategy resolving exactly one record on any batch. -/
def oneRecordStrategy : Strategy := fun _ => [sampleRecord]

/-- A strategy resolving exactly two records on any batch. -/
def twoRecordStrategy : Strategy := fun _ => [sampleRecord, sampleRecord2]

/-- A fallible strategy computation that always fails internally. -/
def failingLookup :
    List CallTraceNode → Except String (List IdentifiedAddress) :=
  fun _ => Except.error "lookup failed"

/-- A configuration whose chain resolution reports an unsupported chain. -/
def sampleUnsupportedConfig : Config :=
  { resolveEtherscan := fun _ => EtherscanResolution.unsupportedChain }

/-- The instrumented semantics returns the same records as the plain one. -/
theorem identifyRun_fst (self : TraceIdentifiers)
    (nodes : List CallTraceNode) :
    (self.identifyRun nodes).1 = self.identify_addresses nodes := by
  unfold TraceIdentifiers.identifyRun TraceIdentifiers.identify_addresses
    TraceIdentifiers.identifyRunEtherscanStep TraceIdentifiers.identifyEtherscanStep
  cases self.«local» with
  | none => cases self.etherscan <;> simp
  | some l =>
      by_cases h : (l nodes).length ≥ nodes.length
      · simp [h]
      · cases self.etherscan <;> simp [h]

/-- Claim C1: with a local strategy configured, if the record count
accumulated after invoking the local strategy is at least the input node
count, `identify_addresses` returns those records immediately and the
etherscan strategy is never invoked for that call. -/
theorem local_shortcircuit_skips_etherscan (self : TraceIdentifiers)
    (l : Strategy) (nodes : List CallTraceNode)
    (hl : self.«local» = some l)
    (hcount : (l nodes).length ≥ nodes.length) :
    InvokedStrategy.etherscanStrategy ∉ (self.identifyRun nodes).2 ∧
      self.identify_addresses nodes = l nodes := by
  unfold TraceIdentifiers.identifyRun TraceIdentifiers.identify_addresses
  simp [hl, hcount]

/-- Concrete witness for C1: one input node, a local strategy returning one
record, an etherscan strategy configured but skipped. -/
theorem local_shortcircuit_skips_etherscan_witness :
    InvokedStrategy.etherscanStrategy ∉
        ((TraceIdentifiers.mk (some oneRecordStrategy)
          (some twoRecordStrategy)).identifyRun [sampleNode]).2 ∧
      (TraceIdentifiers.mk (some oneRecordStrategy)
          (some twoRecordStrategy)).identify_addresses [sampleNode]
        = oneRecordStrategy [sampleNode] :=
  local_shortcircuit_skips_etherscan _ oneRecordStrategy [sampleNode] rfl
    (Nat.le_refl 1)

/-- Claim C2: with neither strategy configured, `identify_addresses` returns
the empty record sequence on every batch and `is_empty` is true. -/
theorem no_strategies_empty_result (self : TraceIdentifiers)
    (nodes : List CallTraceNode)
    (hl : self.«local» = none) (he : self.etherscan = none) :
    self.identify_addresses nodes = [] ∧ self.is_empty = true := by
  unfold TraceIdentifiers.identify_addresses
    TraceIdentifiers.identifyEtherscanStep TraceIdentifiers.is_empty
  simp [hl, he]

/-- Concrete witness for C2: the empty instance on a five-node batch. -/
theorem no_strategies_empty_result_witness :
    TraceIdentifiers.new.identify_addresses
        [sampleNode, sampleNode, sampleNode, sampleNode, sampleNode] = [] ∧
      TraceIdentifiers.new.is_empty = true :=
  no_strategies_empty_result TraceIdentifiers.new
    [sampleNode, sampleNode, sampleNode, sampleNode, sampleNode] rfl rfl

/-- Claim C3: the result of `identify_addresses` is exactly the concatenation
of the outputs of the strategies actually invoked, in invocation order, and
its length is the sum of those outputs' lengths; the orchestrator neither
deduplicates, reorders, inserts nor removes records. -/
theorem merge_is_concatenation (self : TraceIdentifiers)
    (nodes : List CallTraceNode) :
    self.identify_addresses nodes
        = ((self.identifyRun nodes).2.map (self.strategyOutput nodes)).flatten ∧
      (self.identify_addresses nodes).length
        = ((self.identifyRun nodes).2.map
            (fun k => (self.strategyOutput nodes k).length)).sum := by
  unfold TraceIdentifiers.identify_addresses TraceIdentifiers.identifyRun
    TraceIdentifiers.identifyEtherscanStep
    TraceIdentifiers.identifyRunEtherscanStep TraceIdentifiers.strategyOutput
  cases hl : self.«local» with
  | none =>
      cases he : self.etherscan with
      | none => simp
      | some e => simp
  | some l =>
      by_cases hc : (l nodes).length ≥ nodes.length
      · simp [hc]
      · cases he : self.etherscan with
        | none => simp [hc]
        | some e => simp [hc]

/-- Claim C4: `is_empty` is true exactly when neither the local slot nor the
etherscan slot is configured. -/
theorem is_empty_iff_no_slots (self : TraceIdentifiers) :
    self.is_empty = true ↔ self.«local» = none ∧ self.etherscan = none := by
  unfold TraceIdentifiers.is_empty
  simp [Option.isNone_iff_eq_none]

/-- Claim C5: `identify_addresses` never signals failure. Its codomain is a
plain record list, and a strategy's internal failure — absorbed per the
strategy contract into an empty output — is never propagated: the call still
returns the best-effort concatenation, and when every configured strategy
fails internally the call returns the empty list rather than an error. -/
theorem identify_addresses_never_fails
    (f g : List CallTraceNode → Except String (List IdentifiedAddress))
    (nodes : List CallTraceNode) :
    (TraceIdentifiers.mk (some (absorbFailures f))
          (some (absorbFailures g))).identify_addresses nodes
        = absorbFailures f nodes
          ++ (if (absorbFailures f nodes).length ≥ nodes.length then []
              else absorbFailures g nodes) ∧
      (∀ e1 e2, f nodes = Except.error e1 → g nodes = Except.error e2 →
        (TraceIdentifiers.mk (some (absorbFailures f))
            (some (absorbFailures g))).identify_addresses nodes = []) := by
  constructor
  · unfold TraceIdentifiers.identify_addresses
      TraceIdentifiers.identifyEtherscanStep
    by_cases hc : (absorbFailures f nodes).length ≥ nodes.length
    · simp [hc]
    · simp [hc]
  · intro e1 e2 hf hg
    unfold TraceIdentifiers.identify_addresses
      TraceIdentifiers.identifyEtherscanStep
    simp [absorbFailures, hf, hg]

/-- Concrete witness for C5: both strategies fail internally on a one-node
batch; the call returns the empty list, not an error. -/
theorem identify_addresses_never_fails_witness :
    (TraceIdentifiers.mk (some (absorbFailures failingLookup))
        (some (absorbFailures failingLookup))).identify_addresses
      [sampleNode] = [] :=
  (identify_addresses_never_fails failingLookup failingLookup [sampleNode]).2
    "lookup failed" "lookup failed" rfl rfl

/-- Claim C6: with only an etherscan strategy configured, every call to
`identify_addresses` invokes it exactly once, for every batch, including the
empty batch, and returns its output. -/
theorem etherscan_only_always_invoked (self : TraceIdentifiers)
    (e : Strategy) (nodes : List CallTraceNode)
    (hl : self.«local» = none) (he : self.etherscan = some e) :
    (self.identifyRun nodes).2 = [InvokedStrategy.etherscanStrategy] ∧
      self.identify_addresses nodes = e nodes := by
  unfold TraceIdentifiers.identifyRun TraceIdentifiers.identify_addresses
    TraceIdentifiers.identifyEtherscanStep
    TraceIdentifiers.identifyRunEtherscanStep
  simp [hl, he]

/-- Concrete witness for C6: an etherscan-only instance on the empty batch
still invokes the etherscan strategy exactly once. -/
theorem etherscan_only_always_invoked_witness :
    ((TraceIdentifiers.mk none (some twoRecordStrategy)).identifyRun []).2
        = [InvokedStrategy.etherscanStrategy] ∧
      (TraceIdentifiers.mk none (some twoRecordStrategy)).identify_addresses
          [] = twoRecordStrategy [] :=
  etherscan_only_always_invoked _ twoRecordStrategy [] rfl rfl

/-- Claim C7: `with_etherscan` either returns an instance or the single
aggregated construction error. An unsupported chain yields success with the
etherscan slot left empty; a configuration failure surfaces as that one
error; a resolved explorer yields success with the slot filled. -/
theorem with_etherscan_attach_semantics (self : TraceIdentifiers)
    (config : Config) (chain : Option Chain) :
    (config.resolveEtherscan chain = EtherscanResolution.unsupportedChain →
        self.with_etherscan config chain
          = Except.ok { self with etherscan := none }) ∧
      (∀ msg,
        config.resolveEtherscan chain = EtherscanResolution.configError msg →
        self.with_etherscan config chain = Except.error msg) ∧
      (∀ s,
        config.resolveEtherscan chain = EtherscanResolution.resolved s →
        self.with_etherscan config chain
          = Except.ok { self with etherscan := some s }) := by
  refine ⟨fun h => ?_, fun msg h => ?_, fun s h => ?_⟩ <;>
    unfold TraceIdentifiers.with_etherscan EtherscanIdentifier.new <;>
    simp [h]

/-- Concrete witness for C7: attaching over a chain with no supported
explorer succeeds with the etherscan slot left empty. -/
theorem with_etherscan_attach_semantics_witness :
    TraceIdentifiers.new.with_etherscan sampleUnsupportedConfig none
      = Except.ok { TraceIdentifiers.new with etherscan := none } :=
  (with_etherscan_attach_semantics TraceIdentifiers.new
    sampleUnsupportedConfig none).1 rfl

/-- Claim C8: within one call the invocation sequence is a subsequence of
"local then etherscan": each configured strategy runs at most once, no other
strategy ever runs, the local strategy (when configured) runs first, and an
unconfigured slot is never invoked. -/
theorem strategies_priority_order (self : TraceIdentifiers)
    (nodes : List CallTraceNode) :
    List.Sublist (self.identifyRun nodes).2
        [InvokedStrategy.localStrategy, InvokedStrategy.etherscanStrategy] ∧
      (self.«local».isSome = true →
        (self.identifyRun nodes).2.head?
          = some InvokedStrategy.localStrategy) ∧
      (self.«local» = none →
        InvokedStrategy.localStrategy ∉ (self.identifyRun nodes).2) ∧
      (self.etherscan = none →
        InvokedStrategy.etherscanStrategy ∉ (self.identifyRun nodes).2) := by
  unfold TraceIdentifiers.identifyRun
    TraceIdentifiers.identifyRunEtherscanStep
  cases hl : self.«local» with
  | none =>
      cases he : self.etherscan with
      | none => simp
      | some e => simp
  | some l =>
      by_cases hc : (l nodes).length ≥ nodes.length
      · simp [hc]
      · cases he : self.etherscan with
        | none => simp [hc]
        | some e => simp [hc]

/-- Concrete witness for C8: with both strategies configured and a batch the
local strategy cannot cover, the local strategy is still invoked first. -/
theorem strategies_priority_order_witness :
    ((TraceIdentifiers.mk (some oneRecordStrategy)
        (some twoRecordStrategy)).identifyRun
      [sampleNode, sampleNode]).2.head?
      = some InvokedStrategy.localStrategy :=
  (strategies_priority_order _ [sampleNode, sampleNode]).2.1 rfl

/-- Claim C9: on an empty batch, a configured local strategy always
short-circuits (0 ≥ 0), so a configured etherscan strategy is never invoked;
by contrast, with no local strategy a configured etherscan strategy is
invoked even on the empty batch. -/
theorem empty_batch_shortcircuit (self : TraceIdentifiers) :
    (∀ l, self.«local» = some l →
        (self.identifyRun []).2 = [InvokedStrategy.localStrategy]) ∧
      (∀ e, self.«local» = none → self.etherscan = some e →
        (self.identifyRun []).2 = [InvokedStrategy.etherscanStrategy]) := by
  constructor
  · intro l hl
    unfold TraceIdentifiers.identifyRun
    simp [hl]
  · intro e hl he
    unfold TraceIdentifiers.identifyRun
      TraceIdentifiers.identifyRunEtherscanStep
    simp [hl, he]

/-- Concrete witness for C9: both strategies configured, empty batch — only
the local strategy is invoked. -/
theorem empty_batch_shortcircuit_witness :
    ((TraceIdentifiers.mk (some oneRecordStrategy)
        (some twoRecordStrategy)).identifyRun []).2
      = [InvokedStrategy.localStrategy] :=
  (empty_batch_shortcircuit _).1 oneRecordStrategy rfl

/-- Claim C10: builder frame properties. `new` (and `default`, which equals
`new`) leaves both slots unconfigured; `with_local` and
`with_local_and_bytecodes` set only the local slot and leave the etherscan
slot unchanged; a successful `with_etherscan` leaves the local slot
unchanged. -/
theorem builder_frame_properties (self : TraceIdentifiers)
    (kc : ContractsByArtifact) (m : BytecodeMap) (config : Config)
    (chain : Option Chain) :
    TraceIdentifiers.new.«local» = none ∧
      TraceIdentifiers.new.etherscan = none ∧
      TraceIdentifiers.default = TraceIdentifiers.new ∧
      (self.with_local kc).«local»
        = some (LocalTraceIdentifier.new kc).identify_addresses ∧
      (self.with_local kc).etherscan = self.etherscan ∧
      (self.with_local_and_bytecodes kc m).«local»
        = some ((LocalTraceIdentifier.new kc).with_bytecodes
            m).identify_addresses ∧
      (self.with_local_and_bytecodes kc m).etherscan = self.etherscan ∧
      (∀ t, self.with_etherscan config chain = Except.ok t →
        t.«local» = self.«local») := by
  refine ⟨rfl, rfl, rfl, rfl, rfl, rfl, rfl, fun t ht => ?_⟩
  unfold TraceIdentifiers.with_etherscan EtherscanIdentifier.new at ht
  cases h : config.resolveEtherscan chain <;> rw [h] at ht <;>
    simp at ht <;> subst ht <;> rfl

/-- Concrete witness for C10: a successful attach over an unsupported chain
leaves the local slot of a local-only instance unchanged. -/
theorem builder_frame_properties_witness :
    (TraceIdentifiers.mk (some oneRecordStrategy) none : TraceIdentifiers).«local»
      = (TraceIdentifiers.mk (some oneRecordStrategy) none).«local» :=
  (builder_frame_properties (TraceIdentifiers.mk (some oneRecordStrategy) none)
      (ContractsByArtifact.mk []) [] sampleUnsupportedConfig none).2.2.2.2.2.2.2
    (TraceIdentifiers.mk (some oneRecordStrategy) none) rfl

end FoundryTraces
